import Mathlib

/-!
Verification of the validation layer of the `tt` package
(`tt/utils/assertions.py`): the symbol-set reconciler
`assert_iterable_contains_all_expr_symbols` and the keyed-value validator
`assert_all_valid_keys`.

Modelling choices:
* a Python symbol is a `String`;
* the Python set `reference_set` is modelled as a `List String` (the
  caller-supplied set; being a set it has no duplicate elements — claims
  that need this carry a `Nodup` hypothesis);
* `set(passed_symbol_list)` is modelled as `List.dedup`, a deterministic
  stand-in for Python's unspecified set iteration order;
* a Python dict is a `List (String × Value)` of its key/value pairs in
  iteration (insertion) order — dict keys are inherently unique;
* raising an exception is modelled as returning `Except.error`.
-/

namespace TT

/-- Python values that can appear as dict values in calls to
`assert_all_valid_keys`: integers, booleans and strings. -/
inductive Value where
  | VInt (n : Int)
  | VBool (b : Bool)
  | VStr (s : String)
deriving DecidableEq

/-- Python `str()` rendering of a `Value`, used by string formatting in
error messages. -/
def Value.pyStr : Value → String
  | .VInt n => toString n
  | .VBool b => if b then ("True") else ("False")
  | .VStr s => s

/-- Modelled from the spec: `BOOLEAN_VALUES` is imported from
`tt/definitions.py`, which is not part of the provided source; per the
spec and the docstring of `assert_all_valid_keys` it holds
`1, 0, True, False`. This predicate decides Python membership
`v in BOOLEAN_VALUES`: the integers 1 and 0 and both booleans are
members (Python `==` identifies `True` with `1` and `False` with `0`),
and nothing else is. -/
def BOOLEAN_VALUES_contains : Value → Bool
  | .VInt n => n == 1 || n == 0
  | .VBool _ => true
  | .VStr _ => false

/-- The error taxonomy of `tt/errors` used by the validation layer, each
variant carrying its message string. -/
inductive ValidationError where
  | DuplicateSymbolError (msg : String)
  | MissingSymbolError (msg : String)
  | ExtraSymbolError (msg : String)
  | InvalidBooleanValueError (msg : String)
deriving DecidableEq

/-- Python `', '.join(l)`. -/
def joinComma (l : List String) : String := String.intercalate (", ") l

/-- Python `'"{}"'.format(sym)`: the symbol wrapped in double quotes. -/
def quoteSym (s : String) : String := "\"" ++ s ++ "\""

/-- Embedding of `assert_iterable_contains_all_expr_symbols` from
`tt/utils/assertions.py`: materialize the iterable into a list, derive
its set, raise `DuplicateSymbolError` on a length mismatch, otherwise
compute both set differences and raise `MissingSymbolError` (reference
excess) before `ExtraSymbolError` (passed excess). -/
def assert_iterable_contains_all_expr_symbols (iter_of_strs : List String)
    (reference_set : List String) : Except ValidationError Unit :=
  let passed_symbol_list := iter_of_strs
  let passed_symbol_set := passed_symbol_list.dedup
  if passed_symbol_list.length ≠ passed_symbol_set.length then
    .error (.DuplicateSymbolError ("Received duplicate symbols"))
  else
    let passed_excess_set := passed_symbol_set.filter fun s => decide (s ∉ reference_set)
    let reference_excess_set := reference_set.filter fun s => decide (s ∉ passed_symbol_set)
    if reference_excess_set ≠ [] then
      .error (.MissingSymbolError
        ("Did not receive value for the following symbols: " ++
          joinComma (reference_excess_set.map quoteSym)))
    else if passed_excess_set ≠ [] then
      .error (.ExtraSymbolError
        ("Received unexpected symbols: " ++
          joinComma (passed_excess_set.map quoteSym)))
    else
      .ok ()

/-- Embedding of `assert_all_valid_keys` from `tt/utils/assertions.py`:
iterate the dict's pairs in order; for each pair, raise
`ExtraSymbolError` if the key is not in `symbol_set`, then
`InvalidBooleanValueError` if the value is not in `BOOLEAN_VALUES`. -/
def assert_all_valid_keys (symbol_input_dict : List (String × Value))
    (symbol_set : List String) : Except ValidationError Unit :=
  match symbol_input_dict with
  | [] => .ok ()
  | (k, v) :: rest =>
    if k ∉ symbol_set then
      .error (.ExtraSymbolError (quoteSym k ++ " is not a symbol in this expression"))
    else if ¬ BOOLEAN_VALUES_contains v then
      .error (.InvalidBooleanValueError
        (quoteSym v.pyStr ++ " passed as value for " ++ quoteSym k ++
          " is not a valid Boolean value"))
    else
      assert_all_valid_keys rest symbol_set

/-- State-threading form of the reconciler: the reference set is carried
through every statement of the source and returned alongside the result.
Every operation the source applies to `reference_set` (binary set
difference `-` and membership) is non-mutating in Python, so each
statement hands the set on as received. -/
def assert_iterable_contains_all_expr_symbols_track (iter_of_strs : List String)
    (reference_set : List String) : Except ValidationError Unit × List String :=
  let passed_symbol_list := iter_of_strs
  let passed_symbol_set := passed_symbol_list.dedup
  if passed_symbol_list.length ≠ passed_symbol_set.length then
    (.error (.DuplicateSymbolError ("Received duplicate symbols")), reference_set)
  else
    let passed_excess_set := passed_symbol_set.filter fun s => decide (s ∉ reference_set)
    let reference_excess_set := reference_set.filter fun s => decide (s ∉ passed_symbol_set)
    if reference_excess_set ≠ [] then
      (.error (.MissingSymbolError
        ("Did not receive value for the following symbols: " ++
          joinComma (reference_excess_set.map quoteSym))), reference_set)
    else if passed_excess_set ≠ [] then
      (.error (.ExtraSymbolError
        ("Received unexpected symbols: " ++
          joinComma (passed_excess_set.map quoteSym))), reference_set)
    else
      (.ok (), reference_set)

/-- State-threading form of the keyed-value validator: the reference set
is carried through the loop and returned alongside the result; the loop
only tests membership in it, a non-mutating operation. -/
def assert_all_valid_keys_track (symbol_input_dict : List (String × Value))
    (symbol_set : List String) : Except ValidationError Unit × List String :=
  match symbol_input_dict with
  | [] => (.ok (), symbol_set)
  | (k, v) :: rest =>
    if k ∉ symbol_set then
      ((.error (.ExtraSymbolError (quoteSym k ++ " is not a symbol in this expression"))),
        symbol_set)
    else if ¬ BOOLEAN_VALUES_contains v then
      ((.error (.InvalidBooleanValueError
        (quoteSym v.pyStr ++ " passed as value for " ++ quoteSym k ++
          " is not a valid Boolean value"))), symbol_set)
    else
      assert_all_valid_keys_track rest symbol_set

/-! ### Helper lemmas -/

lemma length_eq_dedup_length_iff (l : List String) :
    l.length = l.dedup.length ↔ l.Nodup := by
  constructor
  · intro h
    have he : l.dedup = l := (List.dedup_sublist l).eq_of_length h.symm
    rw [← he]
    exact l.nodup_dedup
  · intro h
    rw [List.dedup_eq_self.mpr h]

lemma filter_not_mem_eq_nil (l r : List String) :
    (l.filter fun s => decide (s ∉ r)) = [] ↔ ∀ s ∈ l, s ∈ r := by
  rw [List.filter_eq_nil_iff]
  simp

lemma reconcile_ok_iff (C R : List String) :
    assert_iterable_contains_all_expr_symbols C R = Except.ok () ↔
      C.Nodup ∧ (∀ s ∈ R, s ∈ C) ∧ (∀ s ∈ C, s ∈ R) := by
  simp only [assert_iterable_contains_all_expr_symbols]
  split_ifs with h1 h2 h3
  · constructor
    · intro h
      exact absurd h (by simp)
    · rintro ⟨hn, -, -⟩
      exact absurd ((length_eq_dedup_length_iff C).mpr hn) h1
  · constructor
    · intro h
      exact absurd h (by simp)
    · rintro ⟨-, hall, -⟩
      refine h2 ((filter_not_mem_eq_nil R C.dedup).mpr fun s hs => ?_)
      exact List.mem_dedup.mpr (hall s hs)
  · constructor
    · intro h
      exact absurd h (by simp)
    · rintro ⟨-, -, hall⟩
      refine h3 ((filter_not_mem_eq_nil C.dedup R).mpr fun s hs => ?_)
      exact hall s (List.mem_dedup.mp hs)
  · push_neg at h1 h2 h3
    simp only [true_iff]
    refine ⟨(length_eq_dedup_length_iff C).mp h1, ?_, ?_⟩
    · intro s hs
      exact List.mem_dedup.mp ((filter_not_mem_eq_nil R C.dedup).mp h2 s hs)
    · intro s hs
      exact (filter_not_mem_eq_nil C.dedup R).mp h3 s (List.mem_dedup.mpr hs)

lemma reconcile_duplicate (C R : List String) (h : ¬ C.Nodup) :
    assert_iterable_contains_all_expr_symbols C R =
      Except.error (ValidationError.DuplicateSymbolError ("Received duplicate symbols")) := by
  have h1 : C.length ≠ C.dedup.length := fun he => h ((length_eq_dedup_length_iff C).mp he)
  simp only [assert_iterable_contains_all_expr_symbols]
  rw [if_pos h1]

lemma reconcile_missing_eq (C R : List String) (hC : C.Nodup)
    (hne : ∃ s ∈ R, s ∉ C) :
    assert_iterable_contains_all_expr_symbols C R =
      Except.error (ValidationError.MissingSymbolError
        ("Did not receive value for the following symbols: " ++
          joinComma (((R.filter fun s => decide (s ∉ C.dedup)).map quoteSym)))) := by
  have h1 : ¬ C.length ≠ C.dedup.length := by
    rw [(length_eq_dedup_length_iff C).mpr hC]
    exact fun h => h rfl
  have h2 : (R.filter fun s => decide (s ∉ C.dedup)) ≠ [] := by
    obtain ⟨s, hsR, hsC⟩ := hne
    intro hnil
    exact hsC (List.mem_dedup.mp ((filter_not_mem_eq_nil R C.dedup).mp hnil s hsR))
  simp only [assert_iterable_contains_all_expr_symbols]
  rw [if_neg h1, if_pos h2]

lemma reconcile_extra_eq (C R : List String) (hC : C.Nodup)
    (hsup : ∀ s ∈ R, s ∈ C) (hne : ∃ s ∈ C, s ∉ R) :
    assert_iterable_contains_all_expr_symbols C R =
      Except.error (ValidationError.ExtraSymbolError
        ("Received unexpected symbols: " ++
          joinComma (((C.dedup.filter fun s => decide (s ∉ R)).map quoteSym)))) := by
  have h1 : ¬ C.length ≠ C.dedup.length := by
    rw [(length_eq_dedup_length_iff C).mpr hC]
    exact fun h => h rfl
  have h2 : (R.filter fun s => decide (s ∉ C.dedup)) = [] :=
    (filter_not_mem_eq_nil R C.dedup).mpr fun s hs => List.mem_dedup.mpr (hsup s hs)
  have h3 : (C.dedup.filter fun s => decide (s ∉ R)) ≠ [] := by
    obtain ⟨s, hsC, hsR⟩ := hne
    intro hnil
    exact hsR ((filter_not_mem_eq_nil C.dedup R).mp hnil s (List.mem_dedup.mpr hsC))
  simp only [assert_iterable_contains_all_expr_symbols]
  rw [if_neg h1, if_neg (not_ne_iff.mpr h2), if_pos h3]

lemma validKeys_ok_iff (M : List (String × Value)) (R : List String) :
    assert_all_valid_keys M R = Except.ok () ↔
      ∀ p ∈ M, p.1 ∈ R ∧ BOOLEAN_VALUES_contains p.2 = true := by
  induction M with
  | nil => simp [assert_all_valid_keys]
  | cons p rest ih =>
    obtain ⟨k, v⟩ := p
    by_cases hk : k ∈ R
    · by_cases hv : BOOLEAN_VALUES_contains v = true
      · simp [assert_all_valid_keys, hk, hv, ih]
      · simp [assert_all_valid_keys, hk, hv]
    · simp [assert_all_valid_keys, hk]

lemma validKeys_skip_valid (pre rest : List (String × Value)) (R : List String)
    (h : ∀ p ∈ pre, p.1 ∈ R ∧ BOOLEAN_VALUES_contains p.2 = true) :
    assert_all_valid_keys (pre ++ rest) R = assert_all_valid_keys rest R := by
  induction pre with
  | nil => rfl
  | cons p pre ih =>
    obtain ⟨k, v⟩ := p
    have hk := (h (k, v) (by simp)).1
    have hv := (h (k, v) (by simp)).2
    have hrest : ∀ p ∈ pre, p.1 ∈ R ∧ BOOLEAN_VALUES_contains p.2 = true :=
      fun p hp => h p (List.mem_cons_of_mem _ hp)
    simp [assert_all_valid_keys, hk, hv, ih hrest]

lemma validKeys_first_offender (pre post : List (String × Value)) (k : String)
    (v : Value) (R : List String)
    (hpre : ∀ p ∈ pre, p.1 ∈ R ∧ BOOLEAN_VALUES_contains p.2 = true)
    (hoff : k ∉ R ∨ BOOLEAN_VALUES_contains v = false) :
    assert_all_valid_keys (pre ++ (k, v) :: post) R =
      Except.error (if k ∈ R then
        ValidationError.InvalidBooleanValueError
          (quoteSym v.pyStr ++ " passed as value for " ++ quoteSym k ++
            " is not a valid Boolean value")
      else
        ValidationError.ExtraSymbolError
          (quoteSym k ++ " is not a symbol in this expression")) := by
  rw [validKeys_skip_valid pre _ R hpre]
  by_cases hk : k ∈ R
  · have hv : BOOLEAN_VALUES_contains v = false := by
      rcases hoff with h | h
      · exact absurd hk h
      · exact h
    simp [assert_all_valid_keys, hk, hv]
  · simp [assert_all_valid_keys, hk]

/-! ### Claim theorems -/

/-- C1: For every reference set R and every duplicate-free candidate
sequence C of symbols, the symbol-set reconciler
`assert_iterable_contains_all_expr_symbols` succeeds (returns `ok`)
if and only if the set of elements of C equals R. -/
theorem c1_reconcile_ok_iff_sets_equal (C R : List String) (h : C.Nodup) :
    assert_iterable_contains_all_expr_symbols C R = Except.ok () ↔
      C.toFinset = R.toFinset := by
  rw [reconcile_ok_iff]
  constructor
  · rintro ⟨-, hR, hC⟩
    ext a
    simp only [List.mem_toFinset]
    exact ⟨fun ha => hC a ha, fun ha => hR a ha⟩
  · intro he
    refine ⟨h, ?_, ?_⟩
    · intro s hs
      have hm := List.mem_toFinset.mpr hs
      rw [← he] at hm
      exact List.mem_toFinset.mp hm
    · intro s hs
      have hm := List.mem_toFinset.mpr hs
      rw [he] at hm
      exact List.mem_toFinset.mp hm

theorem c1_witness :
    (["A", "B"] : List String).Nodup ∧
    (assert_iterable_contains_all_expr_symbols ["A", "B"] ["B", "A"] = Except.ok () ↔
      (["A", "B"] : List String).toFinset = (["B", "A"] : List String).toFinset) :=
  ⟨by decide, c1_reconcile_ok_iff_sets_equal (["A", "B"]) (["B", "A"]) (by decide)⟩

/-- C2: For every mapping M from symbols to values and every reference
set R, `assert_all_valid_keys` succeeds if and only if every key of M is
a member of R and every value of M is in the accepted Boolean-value
domain (per `BOOLEAN_VALUES_contains`). -/
theorem c2_validKeys_ok_iff (M : List (String × Value)) (R : List String) :
    assert_all_valid_keys M R = Except.ok () ↔
      ∀ p ∈ M, p.1 ∈ R ∧ BOOLEAN_VALUES_contains p.2 = true :=
  validKeys_ok_iff M R

/-- C3: For every candidate sequence C containing some element more than
once and for every reference set R, the reconciler fails with
`DuplicateSymbolError`, regardless of how set(C) relates to R: the
duplicate check takes precedence over both mismatch checks. -/
theorem c3_duplicate_precedence (C R : List String) (h : ¬ C.Nodup) :
    assert_iterable_contains_all_expr_symbols C R =
      Except.error (ValidationError.DuplicateSymbolError ("Received duplicate symbols")) :=
  reconcile_duplicate C R h

theorem c3_witness :
    ¬ (["A", "A"] : List String).Nodup ∧
    assert_iterable_contains_all_expr_symbols ["A", "A"] ["A"] =
      Except.error (ValidationError.DuplicateSymbolError ("Received duplicate symbols")) :=
  ⟨by decide, c3_duplicate_precedence (["A", "A"]) (["A"]) (by decide)⟩

/-- C4: For every duplicate-free candidate C and reference set R with
both a missing symbol (in R but not C) and an extra symbol (in C but not
R), the reconciler fails with `MissingSymbolError` (not Extra): Missing
takes priority over Extra, and a single call reports only one of them. -/
theorem c4_missing_priority (C R : List String) (hC : C.Nodup)
    (hmiss : ∃ s ∈ R, s ∉ C) (hextra : ∃ s ∈ C, s ∉ R) :
    ∃ m, assert_iterable_contains_all_expr_symbols C R =
      Except.error (ValidationError.MissingSymbolError m) :=
  ⟨_, reconcile_missing_eq C R hC hmiss⟩

theorem c4_witness :
    (["A"] : List String).Nodup ∧
    (∃ s ∈ (["B"] : List String), s ∉ (["A"] : List String)) ∧
    (∃ s ∈ (["A"] : List String), s ∉ (["B"] : List String)) ∧
    (∃ m, assert_iterable_contains_all_expr_symbols ["A"] ["B"] =
      Except.error (ValidationError.MissingSymbolError m)) :=
  ⟨by decide, by decide, by decide,
    c4_missing_priority (["A"]) (["B"]) (by decide) (by decide) (by decide)⟩

/-- C5: For every duplicate-free candidate C whose element set is a
proper subset of the reference set R, the reconciler fails with
`MissingSymbolError` whose message enumerates exactly the symbols of
R minus set(C), each individually quoted and joined by commas: there is
an enumeration list D, without repetitions, whose members are exactly
the missing symbols, and the message is the fixed text followed by the
comma-join of the quoted members of D. -/
theorem c5_missing_message (C R : List String) (hC : C.Nodup) (hR : R.Nodup)
    (hsub : ∀ s ∈ C, s ∈ R) (hproper : ∃ s ∈ R, s ∉ C) :
    ∃ D : List String, D.Nodup ∧ (∀ s, s ∈ D ↔ s ∈ R ∧ s ∉ C) ∧
      assert_iterable_contains_all_expr_symbols C R =
        Except.error (ValidationError.MissingSymbolError
          ("Did not receive value for the following symbols: " ++
            joinComma (D.map quoteSym))) := by
  refine ⟨R.filter fun s => decide (s ∉ C.dedup), hR.filter _, ?_,
    reconcile_missing_eq C R hC hproper⟩
  intro s
  simp [List.mem_filter, List.mem_dedup]

theorem c5_witness :
    (["A"] : List String).Nodup ∧
    (["A", "B"] : List String).Nodup ∧
    (∀ s ∈ (["A"] : List String), s ∈ (["A", "B"] : List String)) ∧
    (∃ s ∈ (["A", "B"] : List String), s ∉ (["A"] : List String)) ∧
    (∃ D : List String, D.Nodup ∧
      (∀ s, s ∈ D ↔ s ∈ (["A", "B"] : List String) ∧ s ∉ (["A"] : List String)) ∧
      assert_iterable_contains_all_expr_symbols ["A"] ["A", "B"] =
        Except.error (ValidationError.MissingSymbolError
          ("Did not receive value for the following symbols: " ++
            joinComma (D.map quoteSym)))) :=
  ⟨by decide, by decide, by decide, by decide,
    c5_missing_message (["A"]) (["A", "B"]) (by decide) (by decide)
      (by decide) (by decide)⟩

/-- C6: For every duplicate-free candidate C whose element set is a
proper superset of the reference set R, the reconciler fails with
`ExtraSymbolError` whose message enumerates exactly the symbols of
set(C) minus R, under the same quoting and completeness contract as
`MissingSymbolError`. -/
theorem c6_extra_message (C R : List String) (hC : C.Nodup)
    (hsup : ∀ s ∈ R, s ∈ C) (hproper : ∃ s ∈ C, s ∉ R) :
    ∃ D : List String, D.Nodup ∧ (∀ s, s ∈ D ↔ s ∈ C ∧ s ∉ R) ∧
      assert_iterable_contains_all_expr_symbols C R =
        Except.error (ValidationError.ExtraSymbolError
          ("Received unexpected symbols: " ++
            joinComma (D.map quoteSym))) := by
  refine ⟨C.dedup.filter fun s => decide (s ∉ R), (C.nodup_dedup).filter _, ?_,
    reconcile_extra_eq C R hC hsup hproper⟩
  intro s
  simp [List.mem_filter, List.mem_dedup]

theorem c6_witness :
    (["A", "B"] : List String).Nodup ∧
    (∀ s ∈ (["A"] : List String), s ∈ (["A", "B"] : List String)) ∧
    (∃ s ∈ (["A", "B"] : List String), s ∉ (["A"] : List String)) ∧
    (∃ D : List String, D.Nodup ∧
      (∀ s, s ∈ D ↔ s ∈ (["A", "B"] : List String) ∧ s ∉ (["A"] : List String)) ∧
      assert_iterable_contains_all_expr_symbols ["A", "B"] ["A"] =
        Except.error (ValidationError.ExtraSymbolError
          ("Received unexpected symbols: " ++
            joinComma (D.map quoteSym)))) :=
  ⟨by decide, by decide, by decide,
    c6_extra_message (["A", "B"]) (["A"]) (by decide) (by decide) (by decide)⟩

/-- C7: The keyed-value validator processes the mapping's pairs in order
and stops at the first offending pair: with every earlier pair valid, if
the offending pair's key is not in the reference set it fails with
`ExtraSymbolError` naming that key (even when its value is also
invalid: the key check precedes the value check); otherwise, its value
being invalid, it fails with `InvalidBooleanValueError` naming value and
key. Later pairs (`post`) are never examined: the result does not depend
on them. -/
theorem c7_first_offending_pair (pre post : List (String × Value)) (k : String)
    (v : Value) (R : List String)
    (hpre : ∀ p ∈ pre, p.1 ∈ R ∧ BOOLEAN_VALUES_contains p.2 = true)
    (hoff : k ∉ R ∨ BOOLEAN_VALUES_contains v = false) :
    assert_all_valid_keys (pre ++ (k, v) :: post) R =
      Except.error (if k ∈ R then
        ValidationError.InvalidBooleanValueError
          (quoteSym v.pyStr ++ " passed as value for " ++ quoteSym k ++
            " is not a valid Boolean value")
      else
        ValidationError.ExtraSymbolError
          (quoteSym k ++ " is not a symbol in this expression")) :=
  validKeys_first_offender pre post k v R hpre hoff

theorem c7_witness :
    (∀ p ∈ ([("A", Value.VBool true)] : List (String × Value)),
      p.1 ∈ (["A"] : List String) ∧ BOOLEAN_VALUES_contains p.2 = true) ∧
    ("X" ∉ (["A"] : List String) ∨ BOOLEAN_VALUES_contains (Value.VStr ("bad")) = false) ∧
    assert_all_valid_keys
        ([("A", Value.VBool true)] ++ ("X", Value.VStr ("bad")) :: [("Y", Value.VInt 5)])
        ["A"] =
      Except.error (if "X" ∈ (["A"] : List String) then
        ValidationError.InvalidBooleanValueError
          (quoteSym (Value.VStr ("bad")).pyStr ++ " passed as value for " ++
            quoteSym ("X") ++ " is not a valid Boolean value")
      else
        ValidationError.ExtraSymbolError
          (quoteSym ("X") ++ " is not a symbol in this expression")) :=
  ⟨by decide, by decide,
    c7_first_offending_pair ([("A", Value.VBool true)]) ([("Y", Value.VInt 5)])
      ("X") (Value.VStr ("bad")) (["A"]) (by decide) (by decide)⟩

/-- C8 (counterexample): the claim says that whenever some key of M is in
R but maps to an invalid value, the validator fails with
`InvalidBooleanValueError` for that pair. Here the mapping
`[("B", 1), ("A", "x")]` against reference `{"A"}` has the pair
`("A", "x")` with key in the reference and invalid value, yet the
validator raises `ExtraSymbolError` (for the earlier pair `("B", 1)`)
and no `InvalidBooleanValueError` at all. -/
theorem c8_counterexample :
    ((("A", Value.VStr ("x")) ∈
        ([("B", Value.VInt 1), ("A", Value.VStr ("x"))] : List (String × Value))) ∧
      "A" ∈ (["A"] : List String) ∧
      BOOLEAN_VALUES_contains (Value.VStr ("x")) = false) ∧
    assert_all_valid_keys ([("B", Value.VInt 1), ("A", Value.VStr ("x"))]) (["A"]) =
      Except.error (ValidationError.ExtraSymbolError
        ("\"B\" is not a symbol in this expression")) ∧
    ∀ m, assert_all_valid_keys ([("B", Value.VInt 1), ("A", Value.VStr ("x"))]) (["A"]) ≠
      Except.error (ValidationError.InvalidBooleanValueError m) := by
  refine ⟨by decide, rfl, ?_⟩
  intro m hm
  have h : assert_all_valid_keys ([("B", Value.VInt 1), ("A", Value.VStr ("x"))]) (["A"]) =
      Except.error (ValidationError.ExtraSymbolError
        ("\"B\" is not a symbol in this expression")) := rfl
  rw [h] at hm
  exact ValidationError.noConfusion (Except.error.inj hm)

/-- C8 (amended): if M splits as pre ++ (k, v) :: post where every pair
of pre has its key in R and a valid value, k is in R, and v is outside
the accepted Boolean-value domain, then the validator fails with
`InvalidBooleanValueError` naming both v and k. (The proviso on the
earlier pairs is forced: an earlier offending pair triggers its own
error first.) -/
theorem c8_invalid_value_reported (pre post : List (String × Value)) (k : String)
    (v : Value) (R : List String)
    (hpre : ∀ p ∈ pre, p.1 ∈ R ∧ BOOLEAN_VALUES_contains p.2 = true)
    (hk : k ∈ R) (hv : BOOLEAN_VALUES_contains v = false) :
    assert_all_valid_keys (pre ++ (k, v) :: post) R =
      Except.error (ValidationError.InvalidBooleanValueError
        (quoteSym v.pyStr ++ " passed as value for " ++ quoteSym k ++
          " is not a valid Boolean value")) := by
  rw [validKeys_skip_valid pre _ R hpre]
  simp [assert_all_valid_keys, hk, hv]

theorem c8_witness :
    (∀ p ∈ ([("A", Value.VBool true)] : List (String × Value)),
      p.1 ∈ (["A", "B"] : List String) ∧ BOOLEAN_VALUES_contains p.2 = true) ∧
    "B" ∈ (["A", "B"] : List String) ∧
    BOOLEAN_VALUES_contains (Value.VStr ("bad")) = false ∧
    assert_all_valid_keys
        ([("A", Value.VBool true)] ++ ("B", Value.VStr ("bad")) :: []) (["A", "B"]) =
      Except.error (ValidationError.InvalidBooleanValueError
        (quoteSym (Value.VStr ("bad")).pyStr ++ " passed as value for " ++
          quoteSym ("B") ++ " is not a valid Boolean value")) :=
  ⟨by decide, by decide, by decide,
    c8_invalid_value_reported ([("A", Value.VBool true)]) ([]) ("B")
      (Value.VStr ("bad")) (["A", "B"]) (by decide) (by decide) (by decide)⟩

/-- C9: Neither validator mutates the reference set: in the
state-threading forms, which carry the reference set through every
statement of the source, the set handed back equals the set passed in,
for success and failure alike; and the threaded result agrees with the
plain embedding. -/
theorem c9_reference_set_unchanged (C : List String) (M : List (String × Value))
    (R : List String) :
    (assert_iterable_contains_all_expr_symbols_track C R).2 = R ∧
    (assert_all_valid_keys_track M R).2 = R ∧
    (assert_iterable_contains_all_expr_symbols_track C R).1 =
      assert_iterable_contains_all_expr_symbols C R ∧
    (assert_all_valid_keys_track M R).1 = assert_all_valid_keys M R := by
  refine ⟨?_, ?_, ?_, ?_⟩
  · simp only [assert_iterable_contains_all_expr_symbols_track]
    split_ifs <;> rfl
  · induction M with
    | nil => rfl
    | cons p rest ih =>
      obtain ⟨k, v⟩ := p
      by_cases hk : k ∈ R
      · by_cases hv : BOOLEAN_VALUES_contains v = true
        · simpa [assert_all_valid_keys_track, hk, hv] using ih
        · simp [assert_all_valid_keys_track, hk, hv]
      · simp [assert_all_valid_keys_track, hk]
  · simp only [assert_iterable_contains_all_expr_symbols_track,
      assert_iterable_contains_all_expr_symbols]
    split_ifs <;> rfl
  · induction M with
    | nil => rfl
    | cons p rest ih =>
      obtain ⟨k, v⟩ := p
      by_cases hk : k ∈ R
      · by_cases hv : BOOLEAN_VALUES_contains v = true
        · simpa [assert_all_valid_keys_track, assert_all_valid_keys, hk, hv] using ih
        · simp [assert_all_valid_keys_track, assert_all_valid_keys, hk, hv]
      · simp [assert_all_valid_keys_track, assert_all_valid_keys, hk]

/-- C10: For every reference set R, the keyed-value validator succeeds
on the empty mapping, including when R is non-empty (absent expected
keys are not an error for this operation); and the reconciler succeeds
on an empty candidate with an empty reference set. -/
theorem c10_empty_inputs_ok (R : List String) :
    assert_all_valid_keys [] R = Except.ok () ∧
    assert_iterable_contains_all_expr_symbols [] [] = Except.ok () :=
  ⟨rfl, rfl⟩

end TT
